import Mathlib

/-!
Shallow embedding of the `render-to-real` server (`src/server/index.js`):
the upload-intake configuration, the scene analyzer, the prompt builder,
and the two route handlers `/api/analyze` and `/api/transform`, together
with theorems about the claims of the specification.

JavaScript strings are modelled as Lean `String` where only concatenation
and trimming matter (the prompt builder), and as `List Char` where
structural reasoning on individual characters is needed (file names,
extensions, suffix tests).  JavaScript string truthiness (`""` is falsy)
is modelled explicitly.
-/

set_option maxRecDepth 8192

namespace RenderToReal

/-! ## Prompt builder (src/server/index.js lines 181-201) -/

/-- Base template for transforming a render into a photorealistic
photograph, from `src/server/index.js` lines 185-189. -/
def basePrompt : String :=
  "Transform this 3D rendered room into a photorealistic photograph.\nMaintain the exact same layout, furniture placement, camera angle, and composition.\nAdd realistic lighting, textures, materials, shadows, and subtle imperfections that make it look like a real photograph.\nEnhance surfaces with realistic materials: wood grain, fabric textures, metal reflections, glass transparency, etc.\nKeep the same color scheme but make it look naturally lit and photographed with a high-quality camera."

/-- Text inserted before the trimmed scene analysis (line 193). -/
def sceneSectionHeader : String :=
  "\n\nIdentified objects and materials in the scene:\n"

/-- Text appended after the trimmed scene analysis (line 193). -/
def sceneSectionFooter : String :=
  "\n\nEnsure these specific items and materials are rendered with photorealistic accuracy in the output."

/-- Text inserted before the trimmed custom instructions (line 199). -/
def instructionsSectionHeader : String :=
  "\n\nAdditional instructions: "

/-- JavaScript `a || b` on strings: the empty string is falsy. -/
def jsOrElse (v : Option String) (dflt : String) : String :=
  match v with
  | none => dflt
  | some s => if s = "" then dflt else s

/-- JavaScript `String.prototype.trim`: drop whitespace from both ends. -/
def jsTrim (s : String) : String :=
  ⟨((s.data.dropWhile Char.isWhitespace).reverse.dropWhile Char.isWhitespace).reverse⟩

/-- Prompt composition of `/api/transform` (lines 185-201): start from the
base template, append the scene section when the trimmed scene analysis is
truthy (non-empty), then append the instructions section when the trimmed
custom instructions are truthy. -/
def buildPrompt (sceneAnalysis customInstructions : String) : String :=
  let p1 := if jsTrim sceneAnalysis = "" then basePrompt
            else basePrompt ++ (sceneSectionHeader ++ jsTrim sceneAnalysis ++ sceneSectionFooter)
  if jsTrim customInstructions = "" then p1
  else p1 ++ (instructionsSectionHeader ++ jsTrim customInstructions)

example : buildPrompt "" "" = basePrompt := by decide
example : buildPrompt "  \n " "\t" = basePrompt := by decide
example : jsTrim " a b " = "a b" := by decide

/-! ## Upload intake (multer configuration, src/server/index.js lines 13-37) -/

/-- One incoming multipart file part, as multer presents it to the
`fileFilter` callback: the client-supplied original name, the declared
MIME type, and the byte size. -/
structure IncomingFile where
  originalname : List Char
  mimetype : List Char
  size : Nat
  deriving DecidableEq, Repr

/-- The fixed upload size ceiling, `limits: fileSize: 10 * 1024 * 1024`
(line 25). -/
def fileSizeLimit : Nat := 10 * 1024 * 1024

/-- Substring test: does `needle` occur contiguously inside the second
list?  Models a JavaScript regular-expression literal-alternative test. -/
def hasSub (needle : List Char) : List Char → Bool
  | [] => needle.isEmpty
  | c :: rest => needle.isPrefixOf (c :: rest) || hasSub needle rest

/-- The test of `/jpeg|jpg|png|webp/` (line 27): true when any of the four
literals occurs in the string. -/
def allowedTypesTest (s : List Char) : Bool :=
  hasSub "jpeg".data s || hasSub "jpg".data s || hasSub "png".data s || hasSub "webp".data s

/-- `path.extname`: the extension of the name, from its last dot to its
end; empty when the name has no dot or its only dot is its first
character. -/
def extname (name : List Char) : List Char :=
  match name.reverse.dropWhile (fun c => c != '.') with
  | [] => []
  | _ :: rest =>
    if rest = [] then []
    else '.' :: (name.reverse.takeWhile (fun c => c != '.')).reverse

example : extname "room.png".data = ".png".data := by decide
example : extname "archive.tar.gz".data = ".gz".data := by decide
example : extname ".hidden".data = [] := by decide
example : extname "noext".data = [] := by decide

/-- The multer `fileFilter` (lines 26-36): accept when both the
lower-cased extension of the original name and the declared MIME type
match `/jpeg|jpg|png|webp/`. -/
def fileFilterOk (f : IncomingFile) : Bool :=
  allowedTypesTest ((extname f.originalname).map Char.toLower) && allowedTypesTest f.mimetype

/-- The `diskStorage` filename rule (lines 18-20):
`Date.now() + path.extname(file.originalname)`. -/
def storedFilename (now : Nat) (f : IncomingFile) : List Char :=
  (Nat.repr now).data ++ extname f.originalname

/-- Result of running the `upload.single('image')` middleware. -/
inductive UploadResult where
  | noFile
  | rejected (message : String)
  | accepted (storedName : List Char)
  deriving DecidableEq

/-- The upload middleware: no file part leaves `req.file` unset; a file
failing the filter or exceeding the size limit makes multer pass an error
to `next`; otherwise the file is persisted under the timestamp name. -/
def runUpload (part : Option IncomingFile) (now : Nat) : UploadResult :=
  match part with
  | none => .noFile
  | some f =>
    if fileFilterOk f = false then .rejected "Only image files are allowed!"
    else if f.size > fileSizeLimit then .rejected "File too large"
    else .accepted (storedFilename now f)

/-! ## Scene analyzer (src/server/index.js lines 50-122) -/

/-- MIME type declared in the inline data URI sent to the vision endpoint
(line 55): `imagePath.endsWith('.png') ? 'image/png' : 'image/jpeg'`. -/
def visionMimeType (imagePath : List Char) : String :=
  if ".png".data.isSuffixOf imagePath then "image/png" else "image/jpeg"

/-- The `image_url` payload value (line 84):
`data:<mimeType>;base64,<base64Image>`. -/
def visionImageUrl (imagePath : List Char) (base64Image : String) : String :=
  "data:" ++ visionMimeType imagePath ++ ";base64," ++ base64Image

/-- Body of the vision endpoint's HTTP response, as `analyzeScene`
consumes it: either it fails to parse to `choices[0].message.content`
being a string, or it yields that string. -/
inductive VisionBody where
  | malformed
  | wellFormed (content : String)
  deriving DecidableEq

/-- Outcome of the `fetch` to the vision endpoint. -/
inductive VisionOutcome where
  | transportError
  | response (ok : Bool) (body : VisionBody)
  deriving DecidableEq

/-- Everything outside `analyzeScene` that determines its result: whether
`fs.readFileSync` succeeds on the stored image, and the vision call's
outcome. -/
structure VisionWorld where
  readOk : Bool
  outcome : VisionOutcome
  deriving DecidableEq

/-- `analyzeScene` (lines 50-122): the whole body sits in a `try` whose
`catch` returns `null`, so a read failure, a transport failure, a
non-success status (which is thrown), or a malformed body (whose field
access throws) all yield `none`; only a success response with a parsed
content string yields the analysis text. -/
def analyzeScene (w : VisionWorld) : Option String :=
  if w.readOk = false then none
  else match w.outcome with
    | .transportError => none
    | .response ok body =>
      if ok = false then none
      else match body with
        | .malformed => none
        | .wellFormed content => some content

/-! ## HTTP outcomes and response bodies -/

/-- A JSON value appearing in one of the server's response bodies. -/
inductive JVal where
  | str (v : String)
  | bool (v : Bool)
  deriving DecidableEq

/-- How a request terminates: a response sent by the handler itself; a
response produced by Express's default error handler (an error was passed
to `next` and no error middleware is installed, so the status is the
error's default, 500); or no response at all because an exception escaped
the `async` handler (Express 4 does not catch rejected handler
promises). -/
inductive HttpOutcome where
  | sent (status : Nat) (body : List (String × JVal))
  | expressDefault (status : Nat)
  | unhandled
  deriving DecidableEq

/-- Body of the 400 response when no file part is present (lines 128 and
173). -/
def noFileBody : List (String × JVal) := [("error", .str "No image file provided")]

/-- Body of the 500 response of `/api/analyze` when the analysis is
absent (lines 139-142): an error summary plus the fallback analysis
text - and no other field. -/
def analyzeFailureBody : List (String × JVal) :=
  [("error", .str "Failed to analyze scene"),
   ("analysis", .str "Unable to identify objects in the scene.")]

/-- Body of the 200 response of `/api/analyze` (lines 145-149). -/
def analyzeSuccessBody (analysis filename : String) : List (String × JVal) :=
  [("success", .bool true), ("analysis", .str analysis), ("filename", .str filename)]

/-- Body of the 500 response of `/api/transform`'s catch block
(lines 270-273). -/
def transformFailureBody (details : String) : List (String × JVal) :=
  [("error", .str "Failed to transform image"), ("details", .str details)]

/-- Body of the 200 response of `/api/transform` (lines 253-257). -/
def transformSuccessBody (imageUrl revisedPrompt : String) : List (String × JVal) :=
  [("success", .bool true), ("imageUrl", .str imageUrl), ("revisedPrompt", .str revisedPrompt)]

/-! ## The `/api/analyze` route (src/server/index.js lines 125-167) -/

/-- Observable effect of one `/api/analyze` request: the HTTP outcome,
how often the vision call was attempted, how often `fs.unlinkSync` was
attempted on the temp file, whether a temp file was persisted, and
whether it is still present after the response. -/
structure AnalyzeRun where
  outcome : HttpOutcome
  visionCalls : Nat
  unlinkCalls : Nat
  filePersisted : Bool
  filePresent : Bool
  deriving DecidableEq

/-- The `/api/analyze` handler: 400 without a file; otherwise run
`analyzeScene` and answer 500 with the fallback body when the analysis is
falsy (absent or the empty string), else 200.  No reachable path of the
handler deletes the stored temp file: the `unlinkSync` in its catch block
is dead code, since nothing inside the `try` throws. -/
def analyzeRoute (part : Option IncomingFile) (now : Nat) (w : VisionWorld) : AnalyzeRun :=
  match runUpload part now with
  | .noFile =>
    { outcome := .sent 400 noFileBody, visionCalls := 0, unlinkCalls := 0,
      filePersisted := false, filePresent := false }
  | .rejected _msg =>
    { outcome := .expressDefault 500, visionCalls := 0, unlinkCalls := 0,
      filePersisted := false, filePresent := false }
  | .accepted storedName =>
    match analyzeScene w with
    | none =>
      { outcome := .sent 500 analyzeFailureBody, visionCalls := 1, unlinkCalls := 0,
        filePersisted := true, filePresent := true }
    | some analysis =>
      if analysis = "" then
        { outcome := .sent 500 analyzeFailureBody, visionCalls := 1, unlinkCalls := 0,
          filePersisted := true, filePresent := true }
      else
        { outcome := .sent 200 (analyzeSuccessBody analysis (String.mk storedName)),
          visionCalls := 1, unlinkCalls := 0, filePersisted := true, filePresent := true }

/-! ## The `/api/transform` route (src/server/index.js lines 170-275) -/

/-- One element of the image-generation response's `data` array. -/
structure GenItem where
  b64_json : String
  revised_prompt : Option String
  deriving DecidableEq

/-- Outcome of the `fetch` to the image-generation endpoint, as the
handler consumes it: a transport failure, a non-success status, a body
that does not parse, or a parsed body with an optional `data` array. -/
inductive GenOutcome where
  | transportError (message : String)
  | httpError (status : Nat) (statusText : String)
  | parseError (message : String)
  | success (dataField : Option (List GenItem))
  deriving DecidableEq

/-- Filesystem behaviour during this request's cleanup: whether
`fs.unlinkSync` on the (present) temp file raises. -/
structure FsWorld where
  unlinkFault : Bool
  deriving DecidableEq

/-- Observable effect of one `/api/transform` request. -/
structure TransformRun where
  outcome : HttpOutcome
  genCalls : Nat
  promptSent : Option String
  unlinkCalls : Nat
  filePersisted : Bool
  filePresent : Bool
  deriving DecidableEq

/-- The catch block of `/api/transform` (lines 259-274): when a file was
persisted and `existsSync` still finds it, attempt `unlinkSync` - if that
raises, the exception escapes the handler and no response is finalized;
otherwise (and when the file is already absent, which is skipped as a
no-op) respond 500 with the error summary and details. -/
def transformCatch (filePersisted present : Bool) (fsw : FsWorld) (errMsg : String)
    (genCalls : Nat) (promptSent : Option String) : TransformRun :=
  if filePersisted then
    if present then
      if fsw.unlinkFault then
        { outcome := .unhandled, genCalls, promptSent, unlinkCalls := 1,
          filePersisted, filePresent := true }
      else
        { outcome := .sent 500 (transformFailureBody errMsg), genCalls, promptSent,
          unlinkCalls := 1, filePersisted, filePresent := false }
    else
      { outcome := .sent 500 (transformFailureBody errMsg), genCalls, promptSent,
        unlinkCalls := 0, filePersisted, filePresent := false }
  else
    { outcome := .sent 500 (transformFailureBody errMsg), genCalls, promptSent,
      unlinkCalls := 0, filePersisted, filePresent := false }

/-- The `/api/transform` handler (lines 170-275): 400 without a file;
otherwise build the prompt from the truthy-or-empty body fields, attempt
the image-generation call, and on a success response with at least one
image delete the temp file (unguarded, inside the `try`) and respond 200;
every thrown error lands in the catch block. -/
def transformRoute (part : Option IncomingFile) (now : Nat)
    (instructionsField sceneAnalysisField : Option String)
    (gen : GenOutcome) (fsw : FsWorld) : TransformRun :=
  match runUpload part now with
  | .noFile =>
    { outcome := .sent 400 noFileBody, genCalls := 0, promptSent := none,
      unlinkCalls := 0, filePersisted := false, filePresent := false }
  | .rejected _msg =>
    { outcome := .expressDefault 500, genCalls := 0, promptSent := none,
      unlinkCalls := 0, filePersisted := false, filePresent := false }
  | .accepted _storedName =>
    let customInstructions := jsOrElse instructionsField ""
    let sceneAnalysis := jsOrElse sceneAnalysisField ""
    let prompt := buildPrompt sceneAnalysis customInstructions
    match gen with
    | .transportError message =>
      transformCatch true true fsw message 1 (some prompt)
    | .httpError status statusText =>
      transformCatch true true fsw
        ("API request failed: " ++ Nat.repr status ++ " " ++ statusText) 1 (some prompt)
    | .parseError message =>
      transformCatch true true fsw message 1 (some prompt)
    | .success dataField =>
      match dataField with
      | none => transformCatch true true fsw "No image generated" 1 (some prompt)
      | some [] => transformCatch true true fsw "No image generated" 1 (some prompt)
      | some (item :: _) =>
        if fsw.unlinkFault then
          { outcome := .unhandled, genCalls := 1, promptSent := some prompt,
            unlinkCalls := 2, filePersisted := true, filePresent := true }
        else
          { outcome := .sent 200 (transformSuccessBody
              ("data:image/png;base64," ++ item.b64_json)
              (jsOrElse item.revised_prompt prompt)),
            genCalls := 1, promptSent := some prompt, unlinkCalls := 1,
            filePersisted := true, filePresent := false }

example :
    runUpload (some ⟨"room.png".data, "image/png".data, 1024⟩) 17 =
      .accepted "17.png".data := by decide
example :
    runUpload (some ⟨"scene.gif".data, "image/gif".data, 100⟩) 17 =
      .rejected "Only image files are allowed!" := by decide
example :
    runUpload (some ⟨"room.png".data, "image/png".data, 10485761⟩) 17 =
      .rejected "File too large" := by decide

/-! ## Sample concrete inputs for witnesses and counterexamples -/

/-- A sample accepted upload. -/
def samplePng : IncomingFile := ⟨"room.png".data, "image/png".data, 2048⟩

/-- A second accepted upload, distinct from `samplePng`. -/
def samplePng2 : IncomingFile := ⟨"other.png".data, "image/png".data, 4096⟩

/-- A sample rejected upload: extension and MIME type outside the allowed
set. -/
def sampleGif : IncomingFile := ⟨"scene.gif".data, "image/gif".data, 100⟩

/-- A sample one-element image-generation payload. -/
def sampleGenItem : GenItem := ⟨"QUJD", none⟩

/-! ## Decimal representation: structure of `Nat.repr` -/

/-- Structural model of the decimal digit string of a number, equal to
the character list of `Nat.repr`. -/
def rep10 (n : Nat) : List Char :=
  if _h : n < 10 then [Nat.digitChar n]
  else rep10 (n / 10) ++ [Nat.digitChar (n % 10)]
termination_by n
decreasing_by exact Nat.div_lt_self (by omega) (by omega)

theorem rep10_eq (n : Nat) :
    rep10 n = if n < 10 then [Nat.digitChar n]
              else rep10 (n / 10) ++ [Nat.digitChar (n % 10)] := by
  rw [rep10]
  split <;> simp_all

theorem digitChar_lt_ten_ne_dot (m : Nat) (h : m < 10) : Nat.digitChar m ≠ '.' := by
  interval_cases m <;> decide

theorem digitChar_lt_ten_inj (m n : Nat) (hm : m < 10) (hn : n < 10)
    (h : Nat.digitChar m = Nat.digitChar n) : m = n := by
  interval_cases m <;> interval_cases n <;> revert h <;> decide

theorem rep10_no_dot (n : Nat) : ∀ c ∈ rep10 n, c ≠ '.' := by
  induction n using Nat.strong_induction_on with
  | _ n ih =>
    rw [rep10_eq]
    split
    · intro c hc
      rw [List.mem_singleton] at hc
      subst hc
      exact digitChar_lt_ten_ne_dot n (by omega)
    · intro c hc
      rw [List.mem_append] at hc
      rcases hc with hc | hc
      · exact ih (n / 10) (Nat.div_lt_self (by omega) (by omega)) c hc
      · rw [List.mem_singleton] at hc
        subst hc
        exact digitChar_lt_ten_ne_dot _ (Nat.mod_lt _ (by omega))

theorem rep10_length_pos (n : Nat) : 0 < (rep10 n).length := by
  rw [rep10_eq]
  split <;> simp

theorem rep10_inj : ∀ m n : Nat, rep10 m = rep10 n → m = n := by
  intro m
  induction m using Nat.strong_induction_on with
  | _ m ih =>
    intro n h
    rw [rep10_eq m, rep10_eq n] at h
    by_cases hm : m < 10 <;> by_cases hn : n < 10
    · rw [if_pos hm, if_pos hn, List.cons.injEq] at h
      exact digitChar_lt_ten_inj m n hm hn h.1
    · rw [if_pos hm, if_neg hn] at h
      have hlen := congrArg List.length h
      simp only [List.length_singleton, List.length_append] at hlen
      have := rep10_length_pos (n / 10)
      omega
    · rw [if_neg hm, if_pos hn] at h
      have hlen := congrArg List.length h
      simp only [List.length_singleton, List.length_append] at hlen
      have := rep10_length_pos (m / 10)
      omega
    · rw [if_neg hm, if_neg hn] at h
      obtain ⟨h1, h2⟩ := List.append_inj' h rfl
      rw [List.cons.injEq] at h2
      have hdiv : m / 10 = n / 10 :=
        ih (m / 10) (Nat.div_lt_self (by omega) (by omega)) (n / 10) h1
      have hmod : m % 10 = n % 10 :=
        digitChar_lt_ten_inj _ _ (Nat.mod_lt _ (by omega)) (Nat.mod_lt _ (by omega)) h2.1
      omega

theorem toDigitsCore_eq_rep10 :
    ∀ (fuel n : Nat) (ds : List Char), n < fuel →
      Nat.toDigitsCore 10 fuel n ds = rep10 n ++ ds := by
  intro fuel
  induction fuel with
  | zero => intro n ds h; omega
  | succ fuel ih =>
    intro n ds h
    by_cases hdiv : n / 10 = 0
    · have hn : n < 10 := by omega
      simp only [Nat.toDigitsCore, hdiv, if_true]
      rw [rep10_eq, if_pos hn, Nat.mod_eq_of_lt hn]
      rfl
    · have hn : ¬ n < 10 := by omega
      have hlt : n / 10 < fuel := by omega
      simp only [Nat.toDigitsCore, hdiv, if_false]
      rw [ih (n / 10) _ hlt, rep10_eq n, if_neg hn, List.append_assoc]
      rfl

theorem repr_data (n : Nat) : (Nat.repr n).data = rep10 n := by
  show (Nat.toDigits 10 n).asString.data = rep10 n
  rw [Nat.toDigits, toDigitsCore_eq_rep10 (n + 1) n [] (by omega), List.append_nil]
  rfl

theorem extname_dot_head (name : List Char) :
    extname name = [] ∨ ∃ u, extname name = '.' :: u := by
  unfold extname
  cases hd : name.reverse.dropWhile (fun c => c != '.') with
  | nil => exact Or.inl rfl
  | cons c rest =>
    dsimp only
    by_cases hrest : rest = []
    · rw [if_pos hrest]
      exact Or.inl rfl
    · rw [if_neg hrest]
      exact Or.inr ⟨_, rfl⟩

theorem storedFilename_cases (now : Nat) (f : IncomingFile)
    (h : extname f.originalname = '.' :: u) :
    storedFilename now f = rep10 now ++ '.' :: u := by
  unfold storedFilename
  rw [repr_data, h]

theorem allowedTypesTest_nil : allowedTypesTest [] = false := by decide

theorem fileFilterOk_extname_ne_nil (f : IncomingFile) (h : fileFilterOk f = true) :
    extname f.originalname ≠ [] := by
  intro h0
  unfold fileFilterOk at h
  rw [h0, List.map_nil, allowedTypesTest_nil, Bool.false_and] at h
  exact Bool.false_ne_true h

theorem takeWhile_no_dot_append (a u : List Char) (ha : ∀ c ∈ a, c ≠ '.') :
    (a ++ '.' :: u).takeWhile (fun c => c != '.') = a := by
  induction a with
  | nil => simp
  | cons c t ih =>
    have hc : c ≠ '.' := ha c (List.mem_cons_self c t)
    have ih' := ih (fun d hd => ha d (List.mem_cons_of_mem c hd))
    simp only [List.cons_append, List.takeWhile_cons]
    simp [hc, ih']

/-! ## Claim C1 -/

/-- Claim C1 counterexample: an accepted `/api/analyze` request that
succeeds (vision responds 200 with content) completes with the temp file
still present and zero deletion attempts, so the file is not "deleted
exactly once by both endpoints". -/
theorem analyze_success_leaves_temp_file :
    analyzeRoute (some samplePng) 1712 ⟨true, .response true (.wellFormed "A sofa")⟩ =
      { outcome := .sent 200 (analyzeSuccessBody "A sofa" "1712.png"),
        visionCalls := 1, unlinkCalls := 0, filePersisted := true, filePresent := true } := by
  decide

/-- Claim C1 (amended): only `/api/transform` performs unconditional
cleanup - for every accepted upload and every generation outcome, when
cleanup itself raises no filesystem error, the temp file is deleted
exactly once and is absent after the request; `/api/analyze` never
deletes the temp file on any reachable path, leaving it present. -/
theorem temp_file_cleanup_per_endpoint :
    (∀ part now instrF saF gen fsw nm, runUpload part now = .accepted nm →
      fsw.unlinkFault = false →
      (transformRoute part now instrF saF gen fsw).unlinkCalls = 1 ∧
      (transformRoute part now instrF saF gen fsw).filePresent = false) ∧
    (∀ part now w nm, runUpload part now = .accepted nm →
      (analyzeRoute part now w).unlinkCalls = 0 ∧
      (analyzeRoute part now w).filePresent = true) := by
  constructor
  · intro part now instrF saF gen fsw nm hacc hfault
    unfold transformRoute
    rw [hacc]
    cases gen with
    | transportError m => simp [transformCatch, hfault]
    | httpError s st => simp [transformCatch, hfault]
    | parseError m => simp [transformCatch, hfault]
    | success d =>
      match d with
      | none => simp [transformCatch, hfault]
      | some [] => simp [transformCatch, hfault]
      | some (item :: rest) => simp [hfault]
  · intro part now w nm hacc
    unfold analyzeRoute
    rw [hacc]
    cases analyzeScene w with
    | none => simp
    | some a =>
      by_cases ha : a = "" <;> simp [ha]

/-- Claim C1 witness: the amended theorem applied to a concrete accepted
upload on both endpoints. -/
theorem temp_file_cleanup_per_endpoint_witness :
    ((transformRoute (some samplePng) 1712 none none (.success (some [sampleGenItem]))
        ⟨false⟩).unlinkCalls = 1 ∧
      (transformRoute (some samplePng) 1712 none none (.success (some [sampleGenItem]))
        ⟨false⟩).filePresent = false) ∧
    ((analyzeRoute (some samplePng) 1712 ⟨true, .transportError⟩).unlinkCalls = 0 ∧
      (analyzeRoute (some samplePng) 1712 ⟨true, .transportError⟩).filePresent = true) :=
  ⟨temp_file_cleanup_per_endpoint.1 (some samplePng) 1712 none none
      (.success (some [sampleGenItem])) ⟨false⟩ "1712.png".data (by decide) rfl,
    temp_file_cleanup_per_endpoint.2 (some samplePng) 1712 ⟨true, .transportError⟩
      "1712.png".data (by decide)⟩

/-! ## Claim C2 -/

/-- Claim C2 counterexample: a wrong-type upload (a `.gif`) is rejected
by the multer file filter, whose error reaches Express's default error
handler, so the response status is 500, not the claimed 400. -/
theorem wrong_type_upload_gets_500 :
    (transformRoute (some sampleGif) 1712 none none (.success (some [sampleGenItem]))
        ⟨false⟩).outcome = .expressDefault 500 ∧
    (transformRoute (some sampleGif) 1712 none none (.success (some [sampleGenItem]))
        ⟨false⟩).genCalls = 0 := by
  constructor <;> decide

/-- Claim C2 (amended): a request with no file part is answered 400 with
the no-file body; a wrong-type or oversized upload is rejected by the
upload middleware and finalized by Express's default error handler with
status 500; in every rejected case the image-generation call count is
zero. -/
theorem rejected_upload_response_and_no_gen :
    (∀ now instrF saF gen fsw,
      (transformRoute none now instrF saF gen fsw).outcome = .sent 400 noFileBody ∧
      (transformRoute none now instrF saF gen fsw).genCalls = 0) ∧
    (∀ f now instrF saF gen fsw, fileFilterOk f = false ∨ f.size > fileSizeLimit →
      (transformRoute (some f) now instrF saF gen fsw).outcome = .expressDefault 500 ∧
      (transformRoute (some f) now instrF saF gen fsw).genCalls = 0) := by
  constructor
  · intro now instrF saF gen fsw
    exact ⟨rfl, rfl⟩
  · intro f now instrF saF gen fsw h
    by_cases hf : fileFilterOk f = false
    · unfold transformRoute runUpload
      dsimp only
      rw [if_pos hf]
      exact ⟨rfl, rfl⟩
    · have hsize : f.size > fileSizeLimit := h.resolve_left hf
      unfold transformRoute runUpload
      dsimp only
      rw [if_neg hf, if_pos hsize]
      exact ⟨rfl, rfl⟩

/-- Claim C2 witness: the amended theorem applied to a missing file and
to a concrete oversized upload. -/
theorem rejected_upload_response_and_no_gen_witness :
    (transformRoute none 1712 none none (.success none) ⟨false⟩).outcome =
      .sent 400 noFileBody ∧
    (transformRoute (some ⟨"big.png".data, "image/png".data, 10485761⟩) 1712 none none
        (.success none) ⟨false⟩).outcome = .expressDefault 500 :=
  ⟨(rejected_upload_response_and_no_gen.1 1712 none none (.success none) ⟨false⟩).1,
    (rejected_upload_response_and_no_gen.2 ⟨"big.png".data, "image/png".data, 10485761⟩
      1712 none none (.success none) ⟨false⟩ (Or.inr (by decide))).1⟩

/-! ## Claim C3 -/

/-- Claim C3: for every sceneAnalysis and instructions values that are
empty or whitespace-only after trimming, the composed prompt of
`/api/transform` equals the base template exactly, with no scene section
and no instructions section appended. -/
theorem buildPrompt_empty_identity (sceneAnalysis customInstructions : String)
    (hsa : jsTrim sceneAnalysis = "") (hci : jsTrim customInstructions = "") :
    buildPrompt sceneAnalysis customInstructions = basePrompt := by
  simp [buildPrompt, hsa, hci]

/-- Claim C3 witness: whitespace-only optional inputs give back the base
template. -/
theorem buildPrompt_empty_identity_witness :
    buildPrompt "  \n " "\t" = basePrompt :=
  buildPrompt_empty_identity "  \n " "\t" (by decide) (by decide)

/-! ## Claim C4 -/

/-- Claim C4: for non-empty (after trimming) sceneAnalysis and
instructions, the composed prompt is the base template, then the scene
section containing the literal trimmed sceneAnalysis, then the
instructions section containing the literal trimmed instructions, in
that fixed order. -/
theorem buildPrompt_fixed_order (sceneAnalysis customInstructions : String)
    (hsa : jsTrim sceneAnalysis ≠ "") (hci : jsTrim customInstructions ≠ "") :
    buildPrompt sceneAnalysis customInstructions =
      basePrompt ++ (sceneSectionHeader ++ jsTrim sceneAnalysis ++ sceneSectionFooter) ++
        (instructionsSectionHeader ++ jsTrim customInstructions) := by
  simp [buildPrompt, hsa, hci]

/-- Claim C4 witness: the spec's example inputs produce base, then scene
section, then instructions section. -/
theorem buildPrompt_fixed_order_witness :
    buildPrompt "Sonos Arc Ultra soundbar" "Make it warmer" =
      basePrompt ++ (sceneSectionHeader ++ "Sonos Arc Ultra soundbar" ++ sceneSectionFooter) ++
        (instructionsSectionHeader ++ "Make it warmer") :=
  buildPrompt_fixed_order "Sonos Arc Ultra soundbar" "Make it warmer" (by decide) (by decide)

/-! ## Claim C5 -/

/-- Claim C5: `analyzeScene` yields `none` - and by its `Option` return
type cannot raise - on a file-read failure, a transport failure, a
non-success HTTP status, or a malformed response body; and an absent
analysis never aborts the transformation step: `/api/transform` with no
scene analysis supplied still makes its image-generation call, with the
un-enriched base prompt. -/
theorem analyzeScene_best_effort_nonfatal :
    (∀ w : VisionWorld,
      w.readOk = false ∨ w.outcome = .transportError ∨
        (∃ b, w.outcome = .response false b) ∨ w.outcome = .response true .malformed →
      analyzeScene w = none) ∧
    (∀ part now gen fsw nm, runUpload part now = .accepted nm →
      (transformRoute part now none none gen fsw).genCalls = 1 ∧
      (transformRoute part now none none gen fsw).promptSent = some basePrompt) := by
  constructor
  · intro w h
    obtain ⟨ro, oc⟩ := w
    rcases h with h | h | ⟨b, h⟩ | h <;> simp only at h
    · subst h; simp [analyzeScene]
    · subst h; cases ro <;> simp [analyzeScene]
    · subst h; cases ro <;> simp [analyzeScene]
    · subst h; cases ro <;> simp [analyzeScene]
  · intro part now gen fsw nm hacc
    have hbp : buildPrompt (jsOrElse none "") (jsOrElse none "") = basePrompt := by decide
    unfold transformRoute
    rw [hacc]
    cases gen with
    | transportError m =>
      by_cases hf : fsw.unlinkFault <;> simp [transformCatch, hbp, hf]
    | httpError s st =>
      by_cases hf : fsw.unlinkFault <;> simp [transformCatch, hbp, hf]
    | parseError m =>
      by_cases hf : fsw.unlinkFault <;> simp [transformCatch, hbp, hf]
    | success d =>
      match d with
      | none => by_cases hf : fsw.unlinkFault <;> simp [transformCatch, hbp, hf]
      | some [] => by_cases hf : fsw.unlinkFault <;> simp [transformCatch, hbp, hf]
      | some (item :: rest) =>
        by_cases hf : fsw.unlinkFault <;> simp [hf, hbp]

/-- Claim C5 witness: the theorem applied to a concrete vision transport
failure and a concrete accepted transform request. -/
theorem analyzeScene_best_effort_nonfatal_witness :
    analyzeScene ⟨true, .transportError⟩ = none ∧
    (transformRoute (some samplePng2) 1713 none none (.success (some [sampleGenItem]))
        ⟨false⟩).genCalls = 1 :=
  ⟨analyzeScene_best_effort_nonfatal.1 ⟨true, .transportError⟩ (Or.inr (Or.inl rfl)),
    (analyzeScene_best_effort_nonfatal.2 (some samplePng2) 1713
      (.success (some [sampleGenItem])) ⟨false⟩ "1713.png".data (by decide)).1⟩

/-! ## Claim C6 -/

/-- Claim C6 counterexample: when the vision endpoint answers with a
non-success status, the 500 body of `/api/analyze` carries only the error
summary and the fallback analysis text - it has no `details` field, so
the claimed `details` field carrying the underlying message does not
exist. -/
theorem analyze_failure_body_has_no_details :
    (analyzeRoute (some samplePng) 1712 ⟨true, .response false .malformed⟩).outcome =
      .sent 500 analyzeFailureBody ∧
    analyzeFailureBody.lookup "details" = none := by
  constructor <;> decide

/-- Claim C6 (amended): whenever the vision endpoint returns a
non-success status, `/api/analyze` responds 500 with a body holding the
error summary and the fallback analysis string (and no `details` field);
on success with non-empty content it responds 200 with success flag,
analysis text and stored filename. -/
theorem analyze_response_shapes :
    (∀ part now w nm b, runUpload part now = .accepted nm →
      w.outcome = .response false b →
      (analyzeRoute part now w).outcome = .sent 500 analyzeFailureBody ∧
      analyzeFailureBody.lookup "details" = none) ∧
    (∀ part now nm content, runUpload part now = .accepted nm → content ≠ "" →
      (analyzeRoute part now ⟨true, .response true (.wellFormed content)⟩).outcome =
        .sent 200 (analyzeSuccessBody content (String.mk nm))) := by
  constructor
  · intro part now w nm b hacc hresp
    obtain ⟨ro, oc⟩ := w
    simp only at hresp
    subst hresp
    have hnone : analyzeScene ⟨ro, .response false b⟩ = none := by
      cases ro <;> simp [analyzeScene]
    unfold analyzeRoute
    rw [hacc, hnone]
    exact ⟨rfl, rfl⟩
  · intro part now nm content hacc hcontent
    have hsome : analyzeScene ⟨true, .response true (.wellFormed content)⟩ = some content := by
      simp [analyzeScene]
    unfold analyzeRoute
    rw [hacc, hsome]
    simp [hcontent]

/-- Claim C6 witness: the amended theorem applied to a concrete failing
and a concrete succeeding vision response. -/
theorem analyze_response_shapes_witness :
    (analyzeRoute (some samplePng2) 1713 ⟨true, .response false .malformed⟩).outcome =
      .sent 500 analyzeFailureBody ∧
    (analyzeRoute (some samplePng2) 1713
        ⟨true, .response true (.wellFormed "A rug")⟩).outcome =
      .sent 200 (analyzeSuccessBody "A rug" "1713.png") :=
  ⟨(analyze_response_shapes.1 (some samplePng2) 1713 ⟨true, .response false .malformed⟩
      "1713.png".data .malformed (by decide) rfl).1,
    analyze_response_shapes.2 (some samplePng2) 1713 "1713.png".data "A rug"
      (by decide) (by decide)⟩

/-! ## Claim C7 -/

/-- Claim C7: when the image-generation endpoint responds with a payload
containing zero images (`data` missing or empty), `/api/transform`
responds 500 with the error summary and a `details` field carrying
"No image generated", and the persisted temp file is deleted before the
response is sent. -/
theorem transform_zero_images_error :
    ∀ part now instrF saF d fsw nm, runUpload part now = .accepted nm →
      fsw.unlinkFault = false → d = none ∨ d = some [] →
      (transformRoute part now instrF saF (.success d) fsw).outcome =
        .sent 500 (transformFailureBody "No image generated") ∧
      (transformRoute part now instrF saF (.success d) fsw).unlinkCalls = 1 ∧
      (transformRoute part now instrF saF (.success d) fsw).filePresent = false := by
  intro part now instrF saF d fsw nm hacc hfault hd
  unfold transformRoute
  rw [hacc]
  rcases hd with hd | hd <;> subst hd <;> simp [transformCatch, hfault]

/-- Claim C7 witness: the theorem applied to a concrete accepted upload
and an empty `data` array. -/
theorem transform_zero_images_error_witness :
    (transformRoute (some samplePng) 1714 none none (.success (some [])) ⟨false⟩).outcome =
      .sent 500 (transformFailureBody "No image generated") ∧
    (transformRoute (some samplePng) 1714 none none (.success (some []))
        ⟨false⟩).unlinkCalls = 1 :=
  ⟨(transform_zero_images_error (some samplePng) 1714 none none (some []) ⟨false⟩
      "1714.png".data (by decide) rfl (Or.inr rfl)).1,
    (transform_zero_images_error (some samplePng) 1714 none none (some []) ⟨false⟩
      "1714.png".data (by decide) rfl (Or.inr rfl)).2.1⟩

/-! ## Claim C8 -/

/-- Claim C8 counterexample: two distinct requests, each persisting an
accepted upload in the same millisecond, are assigned the same stored
filename, so timestamp naming is not collision-free across in-flight
requests. -/
theorem same_timestamp_filename_collision :
    samplePng ≠ samplePng2 ∧
    runUpload (some samplePng) 1700000000000 = .accepted "1700000000000.png".data ∧
    runUpload (some samplePng2) 1700000000000 = .accepted "1700000000000.png".data := by
  refine ⟨by decide, by decide, by decide⟩

/-- Claim C8 (amended): for every two accepted uploads whose request
timestamps differ, the generated stored filenames differ - the decimal
timestamp contains no dot and the extension starts with one, so the name
determines the timestamp. -/
theorem storedFilename_distinct_timestamps (t1 t2 : Nat) (f1 f2 : IncomingFile)
    (h1 : fileFilterOk f1 = true) (h2 : fileFilterOk f2 = true) (ht : t1 ≠ t2) :
    storedFilename t1 f1 ≠ storedFilename t2 f2 := by
  intro heq
  obtain ⟨u1, e1⟩ := (extname_dot_head f1.originalname).resolve_left
    (fileFilterOk_extname_ne_nil f1 h1)
  obtain ⟨u2, e2⟩ := (extname_dot_head f2.originalname).resolve_left
    (fileFilterOk_extname_ne_nil f2 h2)
  rw [storedFilename_cases t1 f1 e1, storedFilename_cases t2 f2 e2] at heq
  have htw := congrArg (List.takeWhile (fun c => c != '.')) heq
  rw [takeWhile_no_dot_append _ _ (rep10_no_dot t1),
      takeWhile_no_dot_append _ _ (rep10_no_dot t2)] at htw
  exact ht (rep10_inj t1 t2 htw)

/-- Claim C8 witness: the amended theorem applied to two concrete
accepted uploads one millisecond apart. -/
theorem storedFilename_distinct_timestamps_witness :
    fileFilterOk samplePng = true ∧
    storedFilename 1712 samplePng ≠ storedFilename 1713 samplePng :=
  ⟨by decide, storedFilename_distinct_timestamps 1712 1713 samplePng samplePng
    (by decide) (by decide) (by decide)⟩

/-! ## Claim C9 -/

/-- Claim C9 counterexample: with a successful generation, a filesystem
error raised during cleanup changes the primary outcome - the fault-free
world gets the 200 success response, while the same request with a
failing `unlinkSync` finalizes no response at all. -/
theorem cleanup_error_changes_outcome :
    (transformRoute (some samplePng) 1715 none none (.success (some [sampleGenItem]))
        ⟨false⟩).outcome =
      .sent 200 (transformSuccessBody "data:image/png;base64,QUJD" basePrompt) ∧
    (transformRoute (some samplePng) 1715 none none (.success (some [sampleGenItem]))
        ⟨true⟩).outcome = .unhandled := by
  constructor <;> decide

/-- Claim C9 (amended): only the catch-path cleanup is best-effort - a
temp file already absent there is skipped as a no-op and the 500 error
response is still sent with deletion unattempted; the success-path
`unlinkSync` sits unguarded inside the `try`, so a filesystem error
during cleanup of a successful transformation aborts the 200 response
(the error reaches the catch block, whose own unlink raises again and
escapes the handler, finalizing no response). -/
theorem cleanup_best_effort_catch_only :
    (∀ fsw errMsg g p,
      (transformCatch true false fsw errMsg g p).unlinkCalls = 0 ∧
      (transformCatch true false fsw errMsg g p).outcome =
        .sent 500 (transformFailureBody errMsg)) ∧
    (∀ part now instrF saF item rest nm, runUpload part now = .accepted nm →
      (transformRoute part now instrF saF (.success (some (item :: rest)))
          ⟨true⟩).outcome = .unhandled) := by
  constructor
  · intro fsw errMsg g p
    simp [transformCatch]
  · intro part now instrF saF item rest nm hacc
    unfold transformRoute
    rw [hacc]
    simp

/-- Claim C9 witness: the amended theorem applied to a concrete catch-path
state and a concrete faulting success path. -/
theorem cleanup_best_effort_catch_only_witness :
    (transformCatch true false ⟨false⟩ "boom" 1 none).unlinkCalls = 0 ∧
    (transformRoute (some samplePng) 1716 none none (.success (some [sampleGenItem]))
        ⟨true⟩).outcome = .unhandled :=
  ⟨(cleanup_best_effort_catch_only.1 ⟨false⟩ "boom" 1 none).1,
    cleanup_best_effort_catch_only.2 (some samplePng) 1716 none none sampleGenItem []
      "1716.png".data (by decide)⟩

/-! ## Claim C10 -/

/-- Claim C10: the MIME type declared in the inline data URI of the
vision call is `image/png` exactly when the stored file path ends with
".png", and `image/jpeg` in every other case - including paths ending in
".webp", which are labeled `image/jpeg`. -/
theorem visionMimeType_spec (p : List Char) :
    (visionMimeType p = "image/png" ↔ ".png".data.isSuffixOf p = true) ∧
    (".webp".data.isSuffixOf p = true → visionMimeType p = "image/jpeg") := by
  have hne : ("image/jpeg" : String) ≠ "image/png" := by decide
  constructor
  · by_cases h : ".png".data.isSuffixOf p = true
    · simp [visionMimeType, h]
    · simp [visionMimeType, h, hne]
  · intro hwebp
    by_cases hpng : ".png".data.isSuffixOf p = true
    · exfalso
      have h1 : ".png".data.reverse <+: p.reverse := by
        simpa [List.isSuffixOf] using hpng
      have h2 : ".webp".data.reverse <+: p.reverse := by
        simpa [List.isSuffixOf] using hwebp
      have h3 := List.prefix_of_prefix_length_le h1 h2 (by decide)
      exact absurd h3 (by decide)
    · simp [visionMimeType, hpng]

/-- Claim C10 witness: a stored `.webp` path gets the `image/jpeg`
label. -/
theorem visionMimeType_spec_witness :
    visionMimeType "uploads/1712.webp".data = "image/jpeg" :=
  (visionMimeType_spec "uploads/1712.webp".data).2 (by decide)

end RenderToReal
